import Mathlib

/-!
Shallow embedding of `client_project.py`, a single-file Django REST
Framework application managing Clients and Projects.

The relational store is modelled as explicit lists of rows; request
handlers are pure functions from a database state, an optional
authenticated caller, path parameters and a parsed request body to a new
database state and an HTTP response.  Serializers are functions from rows
to a small JSON value type.  Unhandled Python exceptions (an uncaught
`DoesNotExist` or `KeyError` inside a handler) surface as an HTTP 500
response, as Django produces for them.
-/

namespace ClientProjectApi

/-- JSON values, as produced by the serialization layer. -/
inductive Json where
  | null : Json
  | str (s : String) : Json
  | num (n : Nat) : Json
  | arr (xs : List Json) : Json
  | obj (fields : List (String × Json)) : Json
deriving Repr

/-- Field lookup in a JSON object (Python dict subscript): `none` models a
`KeyError` / absent key. -/
def jsonLookup : Json → String → Option Json
  | Json.obj fields, k => (fields.find? (fun f => f.1 = k)).map (fun f => f.2)
  | _, _ => none

/-- The key sequence of a JSON object. -/
def jsonKeys : Json → List String
  | Json.obj fields => fields.map (fun f => f.1)
  | _ => []

/-- Row of Django's `auth_user` table (only the columns this app reads). -/
structure User where
  id : Nat
  username : String
deriving DecidableEq, Repr

/-- Row of the `client` table: `client_name`, `created_at` (auto_now_add),
`created_by` (FK to User, SET_NULL so nullable), `updated_at` (auto_now). -/
structure Client where
  id : Nat
  client_name : String
  created_at : Nat
  created_by : Option Nat
  updated_at : Nat
deriving DecidableEq, Repr

/-- Row of the `project` table plus its `project_users` junction rows:
`client` is a required FK (CASCADE), `users` the many-to-many assignment
set, `created_by` a nullable FK (SET_NULL). -/
structure Project where
  id : Nat
  project_name : String
  client : Nat
  users : List Nat
  created_at : Nat
  created_by : Option Nat
deriving DecidableEq, Repr

/-- The relational store: the four tables, the auto-increment counters for
the two surrogate keys, and the current server time used for the
`auto_now_add` / `auto_now` timestamps. -/
structure DB where
  users : List User
  clients : List Client
  projects : List Project
  nextClientId : Nat
  nextProjectId : Nat
  now : Nat
deriving DecidableEq, Repr

/-- `User.objects.get(pk=uid)` as a partial lookup. -/
def findUser (db : DB) (uid : Nat) : Option User :=
  db.users.find? (fun u => u.id = uid)

/-- `Client.objects.get(pk=pk)` as a partial lookup. -/
def findClient (db : DB) (pk : Nat) : Option Client :=
  db.clients.find? (fun c => c.id = pk)

/-- `Project.objects.get(pk=pk)` as a partial lookup. -/
def findProject (db : DB) (pk : Nat) : Option Project :=
  db.projects.find? (fun p => p.id = pk)

/-- An HTTP response: status code and JSON body. -/
structure HttpResponse where
  status : Nat
  body : Json
deriving Repr

/-- DRF response to a request failing the `IsAuthenticated` permission
under TokenAuthentication. -/
def notAuthenticatedResponse : HttpResponse :=
  { status := 401,
    body := Json.obj [("detail", Json.str "Authentication credentials were not provided.")] }

/-- DRF response to `get_object` on an absent row (`Http404`). -/
def notFoundResponse : HttpResponse :=
  { status := 404, body := Json.obj [("detail", Json.str "Not found.")] }

/-- DRF response to `serializer.is_valid(raise_exception=True)` failing;
the field-level error messages are elided, only the status matters here. -/
def badRequestResponse : HttpResponse :=
  { status := 400, body := Json.obj [] }

/-- Django's response to an exception that no handler catches
(`DoesNotExist`, `KeyError`, ...). -/
def serverErrorResponse : HttpResponse :=
  { status := 500, body := Json.null }

/-- `UserSerializer`: `fields = ['id', 'username']`. -/
def UserSerializer_repr (u : User) : Json :=
  Json.obj [("id", Json.num u.id), ("username", Json.str u.username)]

/-- `ProjectSerializer`: `fields = ['id', 'project_name', 'client',
'users', 'created_at', 'created_by']`; `client` is a StringRelatedField
(`Client.__str__` returns `client_name`), `users` nests `UserSerializer`,
and `to_representation` overrides `created_by` with
`instance.created_by.username if instance.created_by else None`. -/
def ProjectSerializer_repr (db : DB) (p : Project) : Json :=
  Json.obj [
    ("id", Json.num p.id),
    ("project_name", Json.str p.project_name),
    ("client", match findClient db p.client with
      | some c => Json.str c.client_name
      | none => Json.null),
    ("users", Json.arr ((p.users.filterMap (findUser db)).map UserSerializer_repr)),
    ("created_at", Json.num p.created_at),
    ("created_by", match p.created_by.bind (findUser db) with
      | some u => Json.str u.username
      | none => Json.null)]

/-- `ProjectCreateSerializer` output: `fields = ['project_name', 'users']`
(no `id`); `users` is a PrimaryKeyRelatedField, rendered as the id list. -/
def ProjectCreateSerializer_repr (p : Project) : Json :=
  Json.obj [
    ("project_name", Json.str p.project_name),
    ("users", Json.arr (p.users.map Json.num))]

/-- Parsed body of `POST /clients/{id}/projects/`: both fields optional at
the HTTP level, validation decides. -/
structure ProjectCreateInput where
  project_name : Option String
  users : Option (List Nat)
deriving Repr

/-- `ProjectCreateSerializer.is_valid`: `project_name` is a required
non-blank CharField of max_length 255; `users` is a required
PrimaryKeyRelatedField(many=True) whose every id must resolve to an
existing User row. -/
def ProjectCreateSerializer_validate (db : DB) (input : ProjectCreateInput) :
    Option (String × List Nat) :=
  match input.project_name, input.users with
  | some name, some ids =>
    if name = "" then none
    else if 255 < name.length then none
    else if ids.all (fun uid => (findUser db uid).isSome) then some (name, ids)
    else none
  | _, _ => none

/-- Parsed body of `POST /clients/`. -/
structure ClientCreateInput where
  client_name : Option String
deriving Repr

/-- `ClientCreateSerializer.is_valid`: `client_name` is a required
non-blank CharField of max_length 255. -/
def ClientCreateSerializer_validate (input : ClientCreateInput) : Option String :=
  match input.client_name with
  | some name =>
    if name = "" then none
    else if 255 < name.length then none
    else some name
  | none => none

/-- `ClientCreateSerializer` output: `fields = ['client_name']` only. -/
def ClientCreateSerializer_repr (c : Client) : Json :=
  Json.obj [("client_name", Json.str c.client_name)]

/-- `ClientSerializer` (the detail shape): `fields = ['id', 'client_name',
'created_at', 'created_by', 'updated_at', 'projects']`; `created_by` is a
read-only StringRelatedField (`User.__str__` is the username), `projects`
nests `ProjectSerializer` over the client's reverse FK set. -/
def ClientSerializer_repr (db : DB) (c : Client) : Json :=
  Json.obj [
    ("id", Json.num c.id),
    ("client_name", Json.str c.client_name),
    ("created_at", Json.num c.created_at),
    ("created_by", match c.created_by.bind (findUser db) with
      | some u => Json.str u.username
      | none => Json.null),
    ("updated_at", Json.num c.updated_at),
    ("projects", Json.arr ((db.projects.filter (fun p => p.client = c.id)).map
      (ProjectSerializer_repr db)))]

/-- `ClientListSerializer`: `fields = ['id', 'client_name', 'created_at',
'created_by']`. -/
def ClientListSerializer_repr (db : DB) (c : Client) : Json :=
  Json.obj [
    ("id", Json.num c.id),
    ("client_name", Json.str c.client_name),
    ("created_at", Json.num c.created_at),
    ("created_by", match c.created_by.bind (findUser db) with
      | some u => Json.str u.username
      | none => Json.null)]

/-- Parsed body of `PUT/PATCH /clients/{id}/`: besides `client_name` a
caller may send values for the read-only fields; DRF drops them before
validation, so they appear here only to show they are ignored. -/
structure ClientUpdateInput where
  client_name : Option String
  id : Option Nat
  created_at : Option Nat
  created_by : Option Nat
  updated_at : Option Nat
  projects : Option (List Nat)
deriving Repr

/-- `ClientSerializer.is_valid` for update: only `client_name` is
writable (`id`, `created_at`, `updated_at` are model-level read-only,
`created_by` and `projects` are declared read_only).  On PUT
(`patch = false`) `client_name` is required; on PATCH it may be absent.
Returns the validated optional new name. -/
def ClientSerializer_validate (input : ClientUpdateInput) (patch : Bool) :
    Option (Option String) :=
  match input.client_name with
  | some name =>
    if name = "" then none
    else if 255 < name.length then none
    else some (some name)
  | none => if patch then some none else none

/-- `GET /clients/` (`ClientListCreateView.list`): open to anonymous
callers, returns every Client in the compact list shape. -/
def ClientListCreateView_list (db : DB) : HttpResponse :=
  { status := 200, body := Json.arr (db.clients.map (ClientListSerializer_repr db)) }

/-- `POST /clients/` (`ClientListCreateView.create`): `get_permissions`
requires authentication for POST; validation via `ClientCreateSerializer`;
`perform_create` saves with `created_by=request.user` and the auto
timestamps; the 201 response body is the create serializer's data. -/
def ClientListCreateView_create (db : DB) (caller : Option Nat)
    (input : ClientCreateInput) : DB × HttpResponse :=
  match caller with
  | none => (db, notAuthenticatedResponse)
  | some uid =>
    match ClientCreateSerializer_validate input with
    | none => (db, badRequestResponse)
    | some name =>
      let c : Client :=
        { id := db.nextClientId, client_name := name, created_at := db.now,
          created_by := some uid, updated_at := db.now }
      let db' := { db with clients := db.clients ++ [c],
                           nextClientId := db.nextClientId + 1 }
      (db', { status := 201, body := ClientCreateSerializer_repr c })

/-- `GET /clients/{id}/` (`ClientDetailView.retrieve`): open to anonymous
callers; `get_object` yields 404 on an absent row, otherwise the full
`ClientSerializer` detail shape. -/
def ClientDetailView_retrieve (db : DB) (pk : Nat) : HttpResponse :=
  match findClient db pk with
  | none => notFoundResponse
  | some c => { status := 200, body := ClientSerializer_repr db c }

/-- `PUT/PATCH /clients/{id}/` (`ClientDetailView.update`): authenticated
only; 404 on an absent row; validated `client_name` is written and
`auto_now` refreshes `updated_at`; responds 200 with the detail shape. -/
def ClientDetailView_update (db : DB) (caller : Option Nat) (pk : Nat)
    (input : ClientUpdateInput) (patch : Bool) : DB × HttpResponse :=
  match caller with
  | none => (db, notAuthenticatedResponse)
  | some _ =>
    match findClient db pk with
    | none => (db, notFoundResponse)
    | some c =>
      match ClientSerializer_validate input patch with
      | none => (db, badRequestResponse)
      | some nameOpt =>
        let c' : Client :=
          { c with client_name := nameOpt.getD c.client_name, updated_at := db.now }
        let db' :=
          { db with clients := db.clients.map (fun x =>
              if x.id = pk then
                { x with client_name := nameOpt.getD x.client_name, updated_at := db.now }
              else x) }
        (db', { status := 200, body := ClientSerializer_repr db' c' })

/-- `DELETE /clients/{id}/` (`ClientDetailView.destroy`): authenticated
only; 404 on an absent row; `instance.delete()` removes the Client row and
every Project row referencing it (`on_delete=CASCADE`); responds 204 with
no body. -/
def ClientDetailView_destroy (db : DB) (caller : Option Nat) (pk : Nat) :
    DB × HttpResponse :=
  match caller with
  | none => (db, notAuthenticatedResponse)
  | some _ =>
    match findClient db pk with
    | none => (db, notFoundResponse)
    | some _ =>
      let db' := { db with
        clients := db.clients.filter (fun c => c.id ≠ pk),
        projects := db.projects.filter (fun p => p.client ≠ pk) }
      (db', { status := 204, body := Json.null })

/-- `POST /clients/{id}/projects/` (`ProjectCreateView.create`):
authenticated only.  `super().create` validates, then `perform_create`
runs `Client.objects.get(pk=...)` — an absent Client raises an uncaught
`DoesNotExist` (500) — and saves the Project with `client` and
`created_by` filled in; the overridden `create` then reads
`response.data['id']` from the `ProjectCreateSerializer` body, re-fetches
the Project and re-serializes it with `ProjectSerializer` for the 201
response; a missing `id` key raises an uncaught `KeyError` (500). -/
def ProjectCreateView_create (db : DB) (caller : Option Nat) (pk : Nat)
    (input : ProjectCreateInput) : DB × HttpResponse :=
  match caller with
  | none => (db, notAuthenticatedResponse)
  | some uid =>
    match ProjectCreateSerializer_validate db input with
    | none => (db, badRequestResponse)
    | some v =>
      match findClient db pk with
      | none => (db, serverErrorResponse)
      | some _ =>
        let proj : Project :=
          { id := db.nextProjectId, project_name := v.1, client := pk,
            users := v.2, created_at := db.now, created_by := some uid }
        let db' := { db with projects := db.projects ++ [proj],
                             nextProjectId := db.nextProjectId + 1 }
        let superResponse : HttpResponse :=
          { status := 201, body := ProjectCreateSerializer_repr proj }
        match jsonLookup superResponse.body "id" with
        | some (Json.num pid) =>
          match findProject db' pid with
          | some p => (db', { status := 201, body := ProjectSerializer_repr db' p })
          | none => (db', serverErrorResponse)
        | _ => (db', serverErrorResponse)

/-- `GET /projects/` (`UserProjectsView`): authenticated only; the
queryset is `request.user.assigned_projects.all()`, the reverse side of
`Project.users`, rendered with `ProjectSerializer`. -/
def UserProjectsView_list (db : DB) (caller : Option Nat) : HttpResponse :=
  match caller with
  | none => notAuthenticatedResponse
  | some uid =>
    { status := 200,
      body := Json.arr ((db.projects.filter (fun p => p.users.contains uid)).map
        (ProjectSerializer_repr db)) }

/-! Concrete data for witnesses and counterexamples, following the
scenario of the spec: users alice(1), bob(2), carol(3) and a Client
"Acme" (id 1) created by alice. -/

/-- Example database: three users, one client, no projects. -/
def exampleDb : DB :=
  { users := [⟨1, "alice"⟩, ⟨2, "bob"⟩, ⟨3, "carol"⟩],
    clients := [⟨1, "Acme", 50, some 1, 50⟩],
    projects := [],
    nextClientId := 2, nextProjectId := 1, now := 100 }

/-- Example project row whose creating user was deleted
(`created_by` nulled by `on_delete=SET_NULL`). -/
def orphanProject : Project :=
  { id := 5, project_name := "Orphan", client := 1, users := [2],
    created_at := 7, created_by := none }

/-- Updating a row in place (mapping an id-preserving edit over the rows
with the matched primary key) is found again by primary-key lookup. -/
theorem find?_map_update (g : Client → Client) (hg : ∀ x, (g x).id = x.id) (pk : Nat) :
    ∀ (l : List Client) (c : Client),
      l.find? (fun x => x.id = pk) = some c →
      (l.map (fun x => if x.id = pk then g x else x)).find? (fun x => x.id = pk) =
        some (g c) := by
  intro l
  induction l with
  | nil => intro c h; simp [List.find?] at h
  | cons a t ih =>
    intro c h
    by_cases ha : a.id = pk
    · rw [List.find?_cons_of_pos _ (by simpa using ha)] at h
      cases h
      rw [List.map_cons, if_pos ha]
      exact List.find?_cons_of_pos _ (by simpa using (hg a).trans ha)
    · rw [List.find?_cons_of_neg _ (by simpa using ha)] at h
      rw [List.map_cons, if_neg ha, List.find?_cons_of_neg _ (by simpa using ha)]
      exact ih c h

/-- A freshly appended row with the sought primary key is found by lookup
when no earlier row carries that key. -/
theorem find?_append_last (pk : Nat) (c : Client) (hc : c.id = pk) :
    ∀ (l : List Client), (∀ x ∈ l, x.id ≠ pk) →
      (l ++ [c]).find? (fun x => x.id = pk) = some c := by
  intro l
  induction l with
  | nil =>
    intro _
    rw [List.nil_append]
    exact List.find?_cons_of_pos _ (by simpa using hc)
  | cons a t ih =>
    intro h
    rw [List.cons_append,
      List.find?_cons_of_neg _ (by simpa using h a (List.mem_cons_self a t))]
    exact ih (fun x hx => h x (List.mem_cons_of_mem a hx))

/-- Field access into the `ClientSerializer` detail shape: the
`client_name` field. -/
theorem clientSerializer_lookup_name (db : DB) (c : Client) :
    jsonLookup (ClientSerializer_repr db c) "client_name" =
      some (Json.str c.client_name) := rfl

/-- Field access into the `ClientSerializer` detail shape: the nested
`projects` field. -/
theorem clientSerializer_lookup_projects (db : DB) (c : Client) :
    jsonLookup (ClientSerializer_repr db c) "projects" =
      some (Json.arr ((db.projects.filter (fun q => q.client = c.id)).map
        (ProjectSerializer_repr db))) := rfl

/-- The key sequence of the `ClientSerializer` detail shape. -/
theorem clientSerializer_keys (db : DB) (c : Client) :
    jsonKeys (ClientSerializer_repr db c) =
      ["id", "client_name", "created_at", "created_by", "updated_at", "projects"] := rfl

/-- C1: claimed — an authenticated POST /clients/{id}/projects/ with an
existing Client, a project_name and resolvable user ids creates the
Project (linked to the Client, created_by the caller, the given users
assigned) and returns HTTP 201 with the Project detail body.  What the
code does at such an input: the Project row is created exactly as claimed,
but building the response reads `response.data['id']` from the
`ProjectCreateSerializer` body, which has no `id` field, so the handler
raises `KeyError` and the response is HTTP 500 with no detail body. -/
theorem projectCreate_valid_input_row_saved_but_500 :
    (ProjectCreateView_create exampleDb (some 1) 1
      ⟨some "Website", some [2, 3]⟩).2.status = 500 ∧
    (ProjectCreateView_create exampleDb (some 1) 1
      ⟨some "Website", some [2, 3]⟩).1.projects =
      [{ id := 1, project_name := "Website", client := 1, users := [2, 3],
         created_at := 100, created_by := some 1 }] ∧
    jsonLookup (ProjectCreateSerializer_repr
      { id := 1, project_name := "Website", client := 1, users := [2, 3],
        created_at := 100, created_by := some 1 }) "id" = none :=
  ⟨rfl, rfl, rfl⟩

/-- C2: claimed — an authenticated POST /clients/{id}/projects/ with a
non-existent parent Client id fails with HTTP 404.  What the code does:
`perform_create` calls `Client.objects.get(pk=...)`, whose `DoesNotExist`
exception is caught nowhere, so Django answers HTTP 500 (and no Project
row is created). -/
theorem projectCreate_missing_client_500 :
    ProjectCreateView_create exampleDb (some 1) 999
      ⟨some "Website", some [2, 3]⟩ = (exampleDb, serverErrorResponse) :=
  rfl

/-- C4: an authenticated POST /clients/{id}/projects/ whose users list
contains an id that resolves to no existing User fails validation with
HTTP 400 and leaves the database unchanged. -/
theorem projectCreate_unknown_user_rejected (db : DB) (uid pk : Nat)
    (input : ProjectCreateInput) (ids : List Nat) (x : Nat)
    (hids : input.users = some ids) (hx : x ∈ ids)
    (hmissing : findUser db x = none) :
    ProjectCreateView_create db (some uid) pk input = (db, badRequestResponse) := by
  have hall : ids.all (fun u => (findUser db u).isSome) = false := by
    rw [List.all_eq_false]
    exact ⟨x, hx, by rw [hmissing]; exact Bool.false_ne_true⟩
  have hval : ProjectCreateSerializer_validate db input = none := by
    unfold ProjectCreateSerializer_validate
    rw [hids]
    cases hpn : input.project_name with
    | none => rfl
    | some name =>
      simp only
      split
      · rfl
      · split
        · rfl
        · rw [hall]
          rfl
  simp [ProjectCreateView_create, hval]

/-- C4 witness: in the example database, user id 99 does not exist, so the
request with users [2, 99] is rejected with 400 and no state change. -/
theorem projectCreate_unknown_user_rejected_witness :
    (⟨some "Website", some [2, 99]⟩ : ProjectCreateInput).users = some [2, 99] ∧
    99 ∈ [2, 99] ∧ findUser exampleDb 99 = none ∧
    ProjectCreateView_create exampleDb (some 1) 1 ⟨some "Website", some [2, 99]⟩ =
      (exampleDb, badRequestResponse) :=
  ⟨rfl, by decide, rfl,
    projectCreate_unknown_user_rejected exampleDb 1 1 _ [2, 99] 99 rfl
      (by decide) rfl⟩

/-- C8: every write or authenticated-only endpoint rejects an anonymous
caller with HTTP 401 and leaves the database unchanged: POST /clients/,
PUT/PATCH /clients/{id}/, DELETE /clients/{id}/,
POST /clients/{id}/projects/ and GET /projects/. -/
theorem anonymous_requests_rejected (db : DB) (pk : Nat)
    (cin : ClientCreateInput) (cup : ClientUpdateInput) (patch : Bool)
    (pin : ProjectCreateInput) :
    notAuthenticatedResponse.status = 401 ∧
    ClientListCreateView_create db none cin = (db, notAuthenticatedResponse) ∧
    ClientDetailView_update db none pk cup patch = (db, notAuthenticatedResponse) ∧
    ClientDetailView_destroy db none pk = (db, notAuthenticatedResponse) ∧
    ProjectCreateView_create db none pk pin = (db, notAuthenticatedResponse) ∧
    UserProjectsView_list db none = notAuthenticatedResponse :=
  ⟨rfl, rfl, rfl, rfl, rfl, rfl⟩

/-- C10: rendering a Project whose `created_by` reference is null (its
creating user was deleted, `on_delete=SET_NULL`) is total: the serialized
`created_by` field is JSON null. -/
theorem projectSerializer_null_created_by (db : DB) (p : Project)
    (h : p.created_by = none) :
    jsonLookup (ProjectSerializer_repr db p) "created_by" = some Json.null := by
  unfold ProjectSerializer_repr jsonLookup
  rw [h]
  rfl

/-- C10 witness: the orphan example project has a null `created_by` and
serializes it as JSON null. -/
theorem projectSerializer_null_created_by_witness :
    orphanProject.created_by = none ∧
    jsonLookup (ProjectSerializer_repr exampleDb orphanProject) "created_by" =
      some Json.null :=
  ⟨rfl, projectSerializer_null_created_by exampleDb orphanProject rfl⟩

/-- C3 counterexample: the claim says a valid authenticated
POST /clients/ returns the full Client detail representation
(`{id, client_name, created_at, created_by, updated_at, projects}`).
At a concrete valid input the 201 response body has the single key
`client_name` and in particular no `id`, so it is not the detail
representation. -/
theorem clientCreate_response_lacks_detail_shape :
    (ClientListCreateView_create exampleDb (some 1) ⟨some "Globex"⟩).2.status = 201 ∧
    jsonKeys (ClientListCreateView_create exampleDb (some 1) ⟨some "Globex"⟩).2.body =
      ["client_name"] ∧
    jsonLookup (ClientListCreateView_create exampleDb (some 1) ⟨some "Globex"⟩).2.body
      "id" = none :=
  ⟨rfl, rfl, rfl⟩

/-- C3 (amended): an authenticated POST /clients/ with a valid non-empty
`client_name` stores a Client with `created_by` the caller and both
timestamps set to the server time, and returns HTTP 201 whose body is the
create representation containing only `client_name` (not the full detail
representation); a missing or empty `client_name` is rejected with a
validation error (HTTP 400) and no state change. -/
theorem ClientListCreateView_create_spec (db : DB) (uid : Nat) (name : String)
    (input : ClientCreateInput) (hname : input.client_name = some name)
    (hne : name ≠ "") (hlen : name.length ≤ 255) :
    ClientListCreateView_create db (some uid) input =
      ({ db with
          clients := db.clients ++
            [{ id := db.nextClientId, client_name := name, created_at := db.now,
               created_by := some uid, updated_at := db.now }],
          nextClientId := db.nextClientId + 1 },
        { status := 201, body := Json.obj [("client_name", Json.str name)] }) ∧
    ClientListCreateView_create db (some uid) ⟨none⟩ = (db, badRequestResponse) ∧
    ClientListCreateView_create db (some uid) ⟨some ""⟩ = (db, badRequestResponse) := by
  have hval : ClientCreateSerializer_validate input = some name := by
    unfold ClientCreateSerializer_validate
    rw [hname]
    show (if name = "" then none
      else if 255 < name.length then none else some name) = some name
    rw [if_neg hne, if_neg (Nat.not_lt.mpr hlen)]
  refine ⟨?_, rfl, rfl⟩
  unfold ClientListCreateView_create
  rw [hval]
  rfl

/-- C3 witness: the amended statement instantiated on the example
database with client_name "Globex". -/
theorem ClientListCreateView_create_spec_witness :
    ((⟨some "Globex"⟩ : ClientCreateInput).client_name = some "Globex" ∧
      "Globex" ≠ "" ∧ "Globex".length ≤ 255) ∧
    (ClientListCreateView_create exampleDb (some 1) ⟨some "Globex"⟩ =
      ({ exampleDb with
          clients := exampleDb.clients ++
            [{ id := exampleDb.nextClientId, client_name := "Globex",
               created_at := exampleDb.now, created_by := some 1,
               updated_at := exampleDb.now }],
          nextClientId := exampleDb.nextClientId + 1 },
        { status := 201, body := Json.obj [("client_name", Json.str "Globex")] }) ∧
      ClientListCreateView_create exampleDb (some 1) ⟨none⟩ =
        (exampleDb, badRequestResponse) ∧
      ClientListCreateView_create exampleDb (some 1) ⟨some ""⟩ =
        (exampleDb, badRequestResponse)) :=
  ⟨⟨rfl, by decide, by decide⟩,
    ClientListCreateView_create_spec exampleDb 1 "Globex" ⟨some "Globex"⟩ rfl
      (by decide) (by decide)⟩

/-- Example database with two clients and a project under each. -/
def exampleDb2 : DB :=
  { users := [⟨1, "alice"⟩, ⟨2, "bob"⟩, ⟨3, "carol"⟩],
    clients := [⟨1, "Acme", 50, some 1, 50⟩, ⟨2, "Globex", 60, some 1, 60⟩],
    projects := [⟨1, "Website", 1, [2, 3], 70, some 1⟩, ⟨2, "App", 2, [2], 80, some 1⟩],
    nextClientId := 3, nextProjectId := 3, now := 100 }

/-- C5: an authenticated DELETE /clients/{id}/ on an existing Client
answers HTTP 204 with no body, removes that Client row and every Project
row whose client reference is it (`on_delete=CASCADE`), keeps every other
Client and Project, and leaves users untouched; on a non-existent id it
answers HTTP 404 with no state change. -/
theorem ClientDetailView_destroy_spec (db : DB) (uid pk : Nat) (c : Client)
    (hc : findClient db pk = some c) :
    (ClientDetailView_destroy db (some uid) pk).2 =
      { status := 204, body := Json.null } ∧
    (∀ x ∈ (ClientDetailView_destroy db (some uid) pk).1.clients, x.id ≠ pk) ∧
    (∀ q ∈ (ClientDetailView_destroy db (some uid) pk).1.projects, q.client ≠ pk) ∧
    (∀ x ∈ db.clients, x.id ≠ pk →
      x ∈ (ClientDetailView_destroy db (some uid) pk).1.clients) ∧
    (∀ q ∈ db.projects, q.client ≠ pk →
      q ∈ (ClientDetailView_destroy db (some uid) pk).1.projects) ∧
    (ClientDetailView_destroy db (some uid) pk).1.users = db.users ∧
    (∀ db2 : DB, findClient db2 pk = none →
      ClientDetailView_destroy db2 (some uid) pk = (db2, notFoundResponse)) := by
  have hd : ClientDetailView_destroy db (some uid) pk =
      ({ db with clients := db.clients.filter (fun x => x.id ≠ pk),
                 projects := db.projects.filter (fun q => q.client ≠ pk) },
        { status := 204, body := Json.null }) := by
    unfold ClientDetailView_destroy
    rw [hc]
  refine ⟨by rw [hd], ?_, ?_, ?_, ?_, by rw [hd], ?_⟩
  · intro x hx
    rw [hd] at hx
    simpa using (List.mem_filter.mp hx).2
  · intro q hq
    rw [hd] at hq
    simpa using (List.mem_filter.mp hq).2
  · intro x hx hne
    rw [hd]
    exact List.mem_filter.mpr ⟨hx, by simpa using hne⟩
  · intro q hq hne
    rw [hd]
    exact List.mem_filter.mpr ⟨hq, by simpa using hne⟩
  · intro db2 h2
    unfold ClientDetailView_destroy
    rw [h2]

/-- C5 witness: deleting client 1 of the two-client example database
keeps exactly the other client and the other client's project. -/
theorem ClientDetailView_destroy_spec_witness :
    findClient exampleDb2 1 = some ⟨1, "Acme", 50, some 1, 50⟩ ∧
    (ClientDetailView_destroy exampleDb2 (some 1) 1).2 =
      { status := 204, body := Json.null } ∧
    (ClientDetailView_destroy exampleDb2 (some 1) 1).1.clients =
      [⟨2, "Globex", 60, some 1, 60⟩] ∧
    (ClientDetailView_destroy exampleDb2 (some 1) 1).1.projects =
      [⟨2, "App", 2, [2], 80, some 1⟩] :=
  ⟨rfl, (ClientDetailView_destroy_spec exampleDb2 1 1 ⟨1, "Acme", 50, some 1, 50⟩
    rfl).1, rfl, rfl⟩

/-- Example PUT body that also tries to overwrite every read-only field. -/
def updateAttempt : ClientUpdateInput :=
  { client_name := some "AcmeCorp", id := some 9, created_at := some 9,
    created_by := some 9, updated_at := some 9, projects := some [7] }

/-- C6: an authenticated PUT or PATCH /clients/{id}/ on an existing Client
changes only `client_name`: the projects and users tables are untouched
and every client row keeps its `id`, `created_at` and `created_by`
whatever the request body holds; on success the row's `updated_at` is
refreshed to the server time and its `client_name` becomes the validated
name (the old name on a PATCH without one); a non-existent id answers
HTTP 404 with no state change. -/
theorem ClientDetailView_update_spec (db : DB) (uid pk : Nat)
    (input : ClientUpdateInput) (patch : Bool) (c : Client) (nameOpt : Option String)
    (hc : findClient db pk = some c)
    (hv : ClientSerializer_validate input patch = some nameOpt) :
    (ClientDetailView_update db (some uid) pk input patch).1.users = db.users ∧
    (ClientDetailView_update db (some uid) pk input patch).1.projects = db.projects ∧
    List.Forall₂ (fun x y : Client =>
        y.id = x.id ∧ y.created_at = x.created_at ∧ y.created_by = x.created_by)
      db.clients (ClientDetailView_update db (some uid) pk input patch).1.clients ∧
    (ClientDetailView_update db (some uid) pk input patch).2.status = 200 ∧
    findClient (ClientDetailView_update db (some uid) pk input patch).1 pk =
      some { c with client_name := nameOpt.getD c.client_name,
                    updated_at := db.now } ∧
    (∀ db2 : DB, findClient db2 pk = none →
      ClientDetailView_update db2 (some uid) pk input patch =
        (db2, notFoundResponse)) := by
  have hd1 : (ClientDetailView_update db (some uid) pk input patch).1 =
      { db with clients := db.clients.map (fun x =>
          if x.id = pk then
            { x with client_name := nameOpt.getD x.client_name, updated_at := db.now }
          else x) } := by
    unfold ClientDetailView_update
    rw [hc, hv]
  have hd2 : (ClientDetailView_update db (some uid) pk input patch).2.status = 200 := by
    unfold ClientDetailView_update
    rw [hc, hv]
  refine ⟨by rw [hd1], by rw [hd1], ?_, hd2, ?_, ?_⟩
  · rw [hd1]
    show List.Forall₂ _ db.clients (db.clients.map _)
    rw [List.forall₂_map_right_iff]
    rw [List.forall₂_same]
    intro x _
    split
    · exact ⟨rfl, rfl, rfl⟩
    · exact ⟨rfl, rfl, rfl⟩
  · rw [hd1]
    exact find?_map_update
      (fun x => { x with client_name := nameOpt.getD x.client_name,
                         updated_at := db.now })
      (fun x => rfl) pk db.clients c hc
  · intro db2 h2
    unfold ClientDetailView_update
    rw [h2]

/-- C6 witness: a PUT on client 1 of the example database with a body
that also tries to set `id`, `created_at`, `created_by`, `updated_at` and
`projects` renames the client, refreshes `updated_at` to the server time,
and changes nothing else. -/
theorem ClientDetailView_update_spec_witness :
    findClient exampleDb2 1 = some ⟨1, "Acme", 50, some 1, 50⟩ ∧
    ClientSerializer_validate updateAttempt false = some (some "AcmeCorp") ∧
    (ClientDetailView_update exampleDb2 (some 1) 1 updateAttempt false).1.projects =
      exampleDb2.projects ∧
    findClient (ClientDetailView_update exampleDb2 (some 1) 1 updateAttempt false).1 1 =
      some ⟨1, "AcmeCorp", 50, some 1, 100⟩ :=
  ⟨rfl, rfl,
    (ClientDetailView_update_spec exampleDb2 1 1 updateAttempt false
      ⟨1, "Acme", 50, some 1, 50⟩ (some "AcmeCorp") rfl rfl).2.1,
    (ClientDetailView_update_spec exampleDb2 1 1 updateAttempt false
      ⟨1, "Acme", 50, some 1, 50⟩ (some "AcmeCorp") rfl rfl).2.2.2.2.1⟩

/-- C7: an authenticated GET /projects/ answers HTTP 200 with exactly the
projects whose many-to-many assignment set contains the caller, each in
the `ProjectSerializer` detail shape: a project whose assignment set
contains u appears in u's rendered list, and it is excluded from the
queryset of any caller v outside its assignment set. -/
theorem UserProjectsView_list_spec (db : DB) (p : Project) (u v : Nat)
    (hp : p ∈ db.projects) (hu : u ∈ p.users) (hv : v ∉ p.users) :
    (UserProjectsView_list db (some u)).status = 200 ∧
    (∀ w : Nat, (UserProjectsView_list db (some w)).body =
      Json.arr ((db.projects.filter (fun q => q.users.contains w)).map
        (ProjectSerializer_repr db))) ∧
    ProjectSerializer_repr db p ∈
      (db.projects.filter (fun q => q.users.contains u)).map
        (ProjectSerializer_repr db) ∧
    p ∉ db.projects.filter (fun q => q.users.contains v) := by
  refine ⟨rfl, fun w => rfl, ?_, ?_⟩
  · exact List.mem_map_of_mem _ (List.mem_filter.mpr ⟨hp, by simpa using hu⟩)
  · intro hmem
    exact hv (by simpa using (List.mem_filter.mp hmem).2)

/-- C7 witness: project 1 of the example database is assigned to bob (2)
and not to alice (1); it appears in bob's rendered list and is excluded
from alice's queryset. -/
theorem UserProjectsView_list_spec_witness :
    ((⟨1, "Website", 1, [2, 3], 70, some 1⟩ : Project) ∈ exampleDb2.projects ∧
      2 ∈ [2, 3] ∧ 1 ∉ [2, 3]) ∧
    (UserProjectsView_list exampleDb2 (some 2)).status = 200 ∧
    ProjectSerializer_repr exampleDb2 ⟨1, "Website", 1, [2, 3], 70, some 1⟩ ∈
      (exampleDb2.projects.filter (fun q => q.users.contains 2)).map
        (ProjectSerializer_repr exampleDb2) ∧
    (⟨1, "Website", 1, [2, 3], 70, some 1⟩ : Project) ∉
      exampleDb2.projects.filter (fun q => q.users.contains 1) :=
  ⟨⟨by decide, by decide, by decide⟩,
    (UserProjectsView_list_spec exampleDb2 ⟨1, "Website", 1, [2, 3], 70, some 1⟩
      2 1 (by decide) (by decide) (by decide)).1,
    (UserProjectsView_list_spec exampleDb2 ⟨1, "Website", 1, [2, 3], 70, some 1⟩
      2 1 (by decide) (by decide) (by decide)).2.2.1,
    (UserProjectsView_list_spec exampleDb2 ⟨1, "Website", 1, [2, 3], 70, some 1⟩
      2 1 (by decide) (by decide) (by decide)).2.2.2⟩

/-- C9: after an authenticated POST /clients/ with a valid `client_name`
(against a store in which the allotted id is fresh, as the auto-increment
key guarantees), GET /clients/{id}/ on the new id answers HTTP 200 with
the full record shape `{id, client_name, created_at, created_by,
updated_at, projects}`, carrying the same `client_name` and an empty
`projects` list. -/
theorem createClient_then_retrieve (db : DB) (uid : Nat) (name : String)
    (hne : name ≠ "") (hlen : name.length ≤ 255)
    (hfc : ∀ x ∈ db.clients, x.id ≠ db.nextClientId)
    (hfp : ∀ q ∈ db.projects, q.client ≠ db.nextClientId) :
    (ClientListCreateView_create db (some uid) ⟨some name⟩).2.status = 201 ∧
    (ClientDetailView_retrieve (ClientListCreateView_create db (some uid)
      ⟨some name⟩).1 db.nextClientId).status = 200 ∧
    jsonLookup (ClientDetailView_retrieve (ClientListCreateView_create db (some uid)
      ⟨some name⟩).1 db.nextClientId).body "client_name" = some (Json.str name) ∧
    jsonLookup (ClientDetailView_retrieve (ClientListCreateView_create db (some uid)
      ⟨some name⟩).1 db.nextClientId).body "projects" = some (Json.arr []) ∧
    jsonKeys (ClientDetailView_retrieve (ClientListCreateView_create db (some uid)
      ⟨some name⟩).1 db.nextClientId).body =
      ["id", "client_name", "created_at", "created_by", "updated_at", "projects"] := by
  have hval : ClientCreateSerializer_validate ⟨some name⟩ = some name := by
    show (if name = "" then none
      else if 255 < name.length then none else some name) = some name
    rw [if_neg hne, if_neg (Nat.not_lt.mpr hlen)]
  have h1 : (ClientListCreateView_create db (some uid) ⟨some name⟩).1 =
      { db with
        clients := db.clients ++
          [{ id := db.nextClientId, client_name := name, created_at := db.now,
             created_by := some uid, updated_at := db.now }],
        nextClientId := db.nextClientId + 1 } := by
    unfold ClientListCreateView_create
    rw [hval]
  have hstatus : (ClientListCreateView_create db (some uid) ⟨some name⟩).2.status = 201 := by
    unfold ClientListCreateView_create
    rw [hval]
  have hfind : findClient (ClientListCreateView_create db (some uid) ⟨some name⟩).1
      db.nextClientId =
      some { id := db.nextClientId, client_name := name, created_at := db.now,
             created_by := some uid, updated_at := db.now } := by
    rw [h1]
    exact find?_append_last db.nextClientId _ rfl db.clients hfc
  have hretr : ClientDetailView_retrieve (ClientListCreateView_create db (some uid)
      ⟨some name⟩).1 db.nextClientId =
      { status := 200,
        body := ClientSerializer_repr
          (ClientListCreateView_create db (some uid) ⟨some name⟩).1
          { id := db.nextClientId, client_name := name, created_at := db.now,
            created_by := some uid, updated_at := db.now } } := by
    unfold ClientDetailView_retrieve
    rw [hfind]
  have hproj : (ClientListCreateView_create db (some uid) ⟨some name⟩).1.projects.filter
      (fun q => q.client =
        ({ id := db.nextClientId, client_name := name, created_at := db.now,
           created_by := some uid, updated_at := db.now } : Client).id) = [] := by
    rw [h1]
    show db.projects.filter (fun q => q.client = db.nextClientId) = []
    rw [List.filter_eq_nil_iff]
    intro q hq
    simpa using hfp q hq
  refine ⟨hstatus, by rw [hretr], by rw [hretr, clientSerializer_lookup_name], ?_,
    by rw [hretr, clientSerializer_keys]⟩
  rw [hretr, clientSerializer_lookup_projects, hproj]
  rfl

/-- C9 witness: creating "Globex" in the example database and retrieving
client 2 returns the detail shape with client_name "Globex" and an empty
projects list. -/
theorem createClient_then_retrieve_witness :
    ("Globex" ≠ "" ∧ "Globex".length ≤ 255 ∧
      (∀ x ∈ exampleDb.clients, x.id ≠ exampleDb.nextClientId) ∧
      (∀ q ∈ exampleDb.projects, q.client ≠ exampleDb.nextClientId)) ∧
    (ClientListCreateView_create exampleDb (some 1) ⟨some "Globex"⟩).2.status = 201 ∧
    (ClientDetailView_retrieve (ClientListCreateView_create exampleDb (some 1)
      ⟨some "Globex"⟩).1 2).status = 200 ∧
    jsonLookup (ClientDetailView_retrieve (ClientListCreateView_create exampleDb
      (some 1) ⟨some "Globex"⟩).1 2).body "client_name" =
      some (Json.str "Globex") ∧
    jsonLookup (ClientDetailView_retrieve (ClientListCreateView_create exampleDb
      (some 1) ⟨some "Globex"⟩).1 2).body "projects" = some (Json.arr []) ∧
    jsonKeys (ClientDetailView_retrieve (ClientListCreateView_create exampleDb
      (some 1) ⟨some "Globex"⟩).1 2).body =
      ["id", "client_name", "created_at", "created_by", "updated_at", "projects"] :=
  ⟨⟨by decide, by decide, by decide, by decide⟩,
    createClient_then_retrieve exampleDb 1 "Globex" (by decide) (by decide)
      (by decide) (by decide)⟩

end ClientProjectApi
